import Mathlib

/-!
Shallow embedding of the StrokeGPT background-mode engine:
the actuator adapters (`handy_controller.py`, `lovense_controller.py`),
the behavior loops and supervisor (`background_modes.py`), the LLM bridge
(`llm_service.py`) and the relay queue (`app.py`).

Python floats are modelled by `ℚ` (all computations in the verified claims
are exact), Python `round` (banker's rounding, half to even) by `pyRound`,
`None`-able move fields by `Option ℚ`, and network I/O by explicit lists of
issued calls (the source discards network results, catching all request
exceptions inside the send helpers).
-/

/-- Python's `round` on a rational: nearest integer, ties to even
(banker's rounding, as Python 3 `round` does). -/
def pyRound (q : ℚ) : ℤ :=
  if q - Int.floor q = 1/2 then
    (if Int.floor q % 2 = 0 then Int.floor q else Int.floor q + 1)
  else if q - Int.floor q < 1/2 then Int.floor q
  else Int.floor q + 1

/-- `_safe_percent` applied to a numeric value: `max(0.0, min(100.0, p))`
(both adapters share this clamp; the non-numeric fallback is not exercised
by the verified claims, whose inputs are numbers or `None`). -/
def clampPct (p : ℚ) : ℚ := max 0 (min 100 p)

/-! ## Handy adapter (`handy_controller.py`) -/

/-- The mutable fields of `HandyController` that the claims are about:
the configured-key flag, the `ActuatorState` triple and the calibration
bounds (`min_user_speed`, `max_user_speed`, `min_handy_depth`,
`max_handy_depth`). -/
structure HandyController where
  hasKey : Bool
  last_stroke_speed : ℤ
  last_depth_pos : ℤ
  last_relative_speed : ℚ
  min_user_speed : ℚ
  max_user_speed : ℚ
  max_handy_depth : ℚ
  min_handy_depth : ℚ
  deriving Repr, DecidableEq

/-- `HandyController.__init__`: speed 0, depth 50, relative speed 50,
user speed bounds [10, 80], depth bounds [0, 100]. -/
def HandyController.init (hasKey : Bool) : HandyController :=
  { hasKey := hasKey
    last_stroke_speed := 0
    last_depth_pos := 50
    last_relative_speed := 50
    min_user_speed := 10
    max_user_speed := 80
    max_handy_depth := 100
    min_handy_depth := 0 }

/-- `HandyController.update_settings`. -/
def HandyController.update_settings (s : HandyController)
    (min_speed max_speed min_depth max_depth : ℚ) : HandyController :=
  { s with
    min_user_speed := min_speed
    max_user_speed := max_speed
    min_handy_depth := min_depth
    max_handy_depth := max_depth }

/-- One network call issued by `HandyController._send_command` (the PUT
path plus the body fields the claims mention). -/
inductive HandyCall where
  | mode (m : ℕ)
  | hampStart
  | hampStop
  | slide (lo hi : ℤ)
  | velocity (v : ℤ)
  deriving Repr, DecidableEq

/-- The physical velocity `move` computes:
`int(round(min_user_speed + (max_user_speed - min_user_speed) * (pct/100)))`
after clamping the input to [0, 100]. -/
def HandyController.final_physical_speed (s : HandyController) (speed : ℚ) : ℤ :=
  pyRound (s.min_user_speed + (s.max_user_speed - s.min_user_speed) * (clampPct speed / 100))

/-- The clamped position zone `move` computes before flipping into slide
coordinates: center `min + (max-min) * depth/100`, half-span
`(max-min) * range/100 / 2`, both ends clamped to the calibration bounds. -/
def HandyController.clamped_zone (s : HandyController) (depth stroke_range : ℚ) : ℚ × ℚ :=
  let relative_pos_pct := clampPct depth
  let absolute_center_pct :=
    s.min_handy_depth + (s.max_handy_depth - s.min_handy_depth) * (relative_pos_pct / 100)
  let calibrated_range_width := s.max_handy_depth - s.min_handy_depth
  let relative_range_pct := clampPct stroke_range
  let span_abs := calibrated_range_width * (relative_range_pct / 100) / 2
  let min_zone_abs := absolute_center_pct - span_abs
  let max_zone_abs := absolute_center_pct + span_abs
  (max s.min_handy_depth min_zone_abs, min s.max_handy_depth max_zone_abs)

/-- The final slide window `move` sends: flip the clamped zone into slide
coordinates with `round(100 - zone)`, widen by 2 when collapsed or
inverted, then clamp the top to 100 and the bottom to 0. -/
def HandyController.slide_window (s : HandyController) (depth stroke_range : ℚ) : ℤ × ℤ :=
  let zone := s.clamped_zone depth stroke_range
  let slide_min := pyRound (100 - zone.2)
  let slide_max := pyRound (100 - zone.1)
  let slide_max := if slide_min ≥ slide_max then slide_min + 2 else slide_max
  let slide_max := min 100 slide_max
  let slide_min := max 0 slide_min
  (slide_min, slide_max)

/-- `HandyController.move`.  Returns the new controller state and the list
of network calls attempted, in order.  `_send_command` swallows every
`RequestException`, so the state update never depends on whether any call
succeeded; the call list records what was attempted. -/
def HandyController.move (s : HandyController)
    (speed depth stroke_range : Option ℚ) : HandyController × List HandyCall :=
  if s.hasKey = false then (s, [])
  else if speed = some 0 then
    ({ s with last_stroke_speed := 0, last_relative_speed := 0 }, [HandyCall.hampStop])
  else
    match speed, depth, stroke_range with
    | some sp, some dp, some rng =>
      let window := s.slide_window dp rng
      let final_speed := s.final_physical_speed sp
      ({ s with
          last_stroke_speed := final_speed
          last_relative_speed := clampPct sp
          last_depth_pos := pyRound (clampPct dp) },
        [HandyCall.mode 0, HandyCall.hampStart,
         HandyCall.slide window.1 window.2, HandyCall.velocity final_speed])
    | _, _, _ => (s, [])

/-- `HandyController.stop`: `move(speed=0, depth=None, stroke_range=None)`. -/
def HandyController.stop (s : HandyController) : HandyController × List HandyCall :=
  s.move (some 0) none none

/-! ## Lovense adapter (`lovense_controller.py`) -/

/-- One command inside a Lovense LAN v2 payload. -/
inductive LovenseCmd where
  | vibrate (value : ℤ)
  | thrust (value : ℤ) (position : ℤ)
  | stopCmd
  deriving Repr, DecidableEq

/-- One network call issued by the Lovense adapter: a LAN v2 POST or a
legacy GET fallback. -/
inductive LovenseCall where
  | v2 (commands : List LovenseCmd)
  | legacy (cmd : String)
  deriving Repr, DecidableEq

/-- The mutable fields of `LovenseController` the claims are about. -/
structure LovenseController where
  configured : Bool
  last_stroke_speed : ℚ
  last_relative_speed : ℚ
  last_depth_pos : ℚ
  min_user_speed : ℚ
  max_user_speed : ℚ
  min_depth : ℚ
  max_depth : ℚ
  deriving Repr, DecidableEq

/-- `LovenseController.__init__`. -/
def LovenseController.init (configured : Bool) : LovenseController :=
  { configured := configured
    last_stroke_speed := 0
    last_relative_speed := 0
    last_depth_pos := 50
    min_user_speed := 10
    max_user_speed := 80
    min_depth := 0
    max_depth := 100 }

/-- Lovense `_safe_percent(value, default)`: `None` yields the default
unchanged, a number is clamped to [0, 100]. -/
def LovenseController.safe_percent (value : Option ℚ) (default : ℚ) : ℚ :=
  match value with
  | none => default
  | some v => max 0 (min 100 v)

/-- `LovenseController.stop`.  `v2ok` records whether the LAN v2 POST
succeeded; on failure the legacy GET fallback is also issued.  The state
update (speed fields zeroed) does not depend on the network outcome. -/
def LovenseController.stop (s : LovenseController) (v2ok : Bool) :
    LovenseController × List LovenseCall :=
  if s.configured = false then (s, [])
  else
    ({ s with last_stroke_speed := 0, last_relative_speed := 0 },
      if v2ok then [LovenseCall.v2 [LovenseCmd.stopCmd]]
      else [LovenseCall.v2 [LovenseCmd.stopCmd], LovenseCall.legacy "Stop"])

/-- `LovenseController.move`.  Null fields are replaced by defaults
(`last_relative_speed`, `last_depth_pos`, 50) via `_safe_percent`; the
vibrate command is always built, the thrust command when the stroke
percentage is positive, and the legacy fallback mirrors them when the v2
POST fails. -/
def LovenseController.move (s : LovenseController) (v2ok : Bool)
    (speed depth stroke_range : Option ℚ) : LovenseController × List LovenseCall :=
  if s.configured = false then (s, [])
  else if speed = some 0 then s.stop v2ok
  else
    let speed_pct := LovenseController.safe_percent speed s.last_relative_speed
    let depth_pct := LovenseController.safe_percent depth s.last_depth_pos
    let stroke_pct := LovenseController.safe_percent stroke_range 50
    let vibration_level := max 0 (min 20 (pyRound (speed_pct / 100 * 20)))
    let commands :=
      if stroke_pct > 0 then
        [LovenseCmd.vibrate vibration_level,
         LovenseCmd.thrust (max 0 (min 20 (pyRound (stroke_pct / 100 * 20)))) (pyRound depth_pct)]
      else [LovenseCmd.vibrate vibration_level]
    let calls :=
      if v2ok then [LovenseCall.v2 commands]
      else
        [LovenseCall.v2 commands,
         LovenseCall.legacy ("Vibrate:" ++ toString vibration_level)] ++
          (match commands with
            | [_, LovenseCmd.thrust v p] =>
              [LovenseCall.legacy ("Thrust:" ++ toString v ++ ":" ++ toString p)]
            | _ => [])
    ({ s with
        last_relative_speed := speed_pct
        last_depth_pos := depth_pct
        last_stroke_speed := speed_pct },
      calls)

/-! ## Background task supervisor (`background_modes.py`, `AutoModeThread`) -/

/-- An observable event of the supervisor thread's `run` method. -/
inductive SupEvent where
  | msg (text : String)
  | loopEv (n : ℕ)
  | log (text : String)
  | actuatorStop
  | onStop
  deriving Repr, DecidableEq

/-- Which optional collaborators the `services` / `callbacks` dicts carry
(`run` guards each use with a truthiness check). -/
structure SupCallbacks where
  send_message : Bool
  on_stop : Bool
  handy : Bool
  deriving Repr, DecidableEq

/-- How the mode function terminates: returning normally (natural
completion or cooperative cancellation) after some internal actions, or
raising an exception after some internal actions. -/
inductive LoopOutcome where
  | completes (events : List ℕ)
  | raises (events : List ℕ) (e : String)
  deriving Repr, DecidableEq

/-- `AutoModeThread.run`: emit the initial message, invoke the mode
function inside `try/except/finally`, log a crash, then in `finally`
stop the actuator, fire `on_stop` and emit the fixed hand-back message. -/
def AutoModeThread.run (cb : SupCallbacks) (initial : String)
    (outcome : LoopOutcome) : List SupEvent :=
  (if cb.send_message then [SupEvent.msg initial] else []) ++
  (match outcome with
    | LoopOutcome.completes evs => evs.map SupEvent.loopEv
    | LoopOutcome.raises evs e =>
        evs.map SupEvent.loopEv ++ [SupEvent.log ("Auto mode crashed: " ++ e)]) ++
  (if cb.handy then [SupEvent.actuatorStop] else []) ++
  (if cb.on_stop then [SupEvent.onStop] else []) ++
  (if cb.send_message then [SupEvent.msg "Okay, you're in control now."] else [])

/-! ## Relay queue (`app.py` `mode_message_queue`, `collections.deque(maxlen=5)`,
and `background_modes._check_for_user_message`) -/

/-- `deque(maxlen=n).append`: append on the right, silently discarding the
leftmost (oldest) item when the queue is full. -/
def dequeAppend (maxlen : ℕ) (q : List String) (x : String) : List String :=
  let grown := q ++ [x]
  if maxlen < grown.length then grown.drop (grown.length - maxlen) else grown

/-- `app.py` line 75: `mode_message_queue = deque(maxlen=5)` — pushing is
`dequeAppend 5`. -/
def mode_message_queue_append (q : List String) (x : String) : List String :=
  dequeAppend 5 q x

/-- `_check_for_user_message`: non-blocking `popleft`, `None` when empty.
Returns the popped message (if any) and the remaining queue. -/
def check_for_user_message (q : List String) : Option String × List String :=
  match q with
  | [] => (none, [])
  | x :: rest => (some x, rest)

/-! ## Milking mode (`background_modes.milking_mode_logic`) -/

/-- Per-iteration environment of the milking loop: whether the stop event
is observed set at the iteration's head check, whether the bridge response
is truthy and carries a move, and the chat text it carries. -/
structure MilkIterInput where
  stopSet : Bool
  respOk : Bool
  chat : Option String

/-- An observable action of the milking loop. -/
inductive MilkOut where
  | bridgeCall
  | chatMsg (text : String)
  | move
  deriving Repr, DecidableEq

/-- The body of `for _ in range(n)`: at each index check the stop event
(`break` when set), call the bridge, and on a truthy response with a move
emit the chat text (when present) and dispatch the move.  Returns the
emitted actions and whether the loop exited via `break`. -/
def milkingIterations (inp : ℕ → MilkIterInput) : ℕ → ℕ → List MilkOut × Bool
  | _, 0 => ([], false)
  | i, Nat.succ fuel =>
    let it := inp i
    if it.stopSet then ([], true)
    else
      let evs :=
        [MilkOut.bridgeCall] ++
          (if it.respOk then
            (match it.chat with
              | some c => [MilkOut.chatMsg c]
              | none => []) ++ [MilkOut.move]
          else [])
      let rest := milkingIterations inp (i + 1) fuel
      (evs ++ rest.1, rest.2)

/-- `milking_mode_logic` with the iteration budget `n` already drawn by
`random.randint(6, 9)`: run the bounded loop, then, when the stop event is
still unset, emit the fixed closing line. -/
def milking_mode_logic (n : ℕ) (inp : ℕ → MilkIterInput) : List MilkOut :=
  let body := milkingIterations inp 0 n
  let stopAtEnd := if body.2 then true else (inp n).stopSet
  body.1 ++
    (if stopAtEnd = false then
      [MilkOut.chatMsg "That's it... give it all to me. Don't hold back."]
    else [])

/-! ## Edging mode (`background_modes.edging_mode_logic`) -/

/-- The loop-carried state of the edging state machine: the edge counter,
the `current_state` phase string and the user edge-signal flag. -/
structure EdgingState where
  edge_count : ℕ
  current_state : String
  signal : Bool
  deriving Repr, DecidableEq

/-- The four normal phases, in the order of the `states` list. -/
def edgingStates : List String := ["BUILD_UP", "TEASE", "HOLD", "RECOVERY"]

/-- `random.choice(states)` as a function of the drawn index. -/
def edgingRandomChoice (r : Fin 4) : String :=
  match r with
  | 0 => "BUILD_UP"
  | 1 => "TEASE"
  | 2 => "HOLD"
  | 3 => "RECOVERY"

/-- The per-phase mood table (`moods` dict). -/
def edgingMoodFor (phase : String) : String :=
  if phase = "BUILD_UP" then "Seductive"
  else if phase = "TEASE" then "Playful"
  else if phase = "HOLD" then "Confident"
  else "Loving"

/-- Per-iteration environment of the edging loop: whether the bridge
response is truthy and carries a move, the chat text it carries, and the
index drawn by `random.choice` for the phase advance. -/
structure EdgingIterInput where
  respOk : Bool
  chat : Option String
  rand : Fin 4

/-- What one completed head-check-to-sleep pass of the edging loop
reports: the phase the prompt was built under and the `edge_count` put
into the context sent to the bridge. -/
structure EdgingIterResult where
  phaseUsed : String
  edgeCountReported : ℕ
  deriving Repr, DecidableEq

/-- An observable action of the edging loop. -/
inductive EdgeOut where
  | mood (m : String)
  | chatMsg (text : String)
  | move
  deriving Repr, DecidableEq

/-- One iteration of the `while` body of `edging_mode_logic`: consume the
edge signal if set (clear it, bump the counter, mood `Dominant`, phase
`PULL_BACK`), otherwise normalise an unknown phase to `BUILD_UP` and use
the per-phase mood; call the bridge; on a failed response `continue`
without a phase advance; otherwise emit chat and move and advance the
phase — forced `RECOVERY` after a signal-triggered `PULL_BACK`, uniformly
random among the four normal phases otherwise. -/
def edgingIteration (s : EdgingState) (inp : EdgingIterInput) :
    EdgingState × EdgingIterResult × List EdgeOut :=
  if s.signal then
    let ec := s.edge_count + 1
    if inp.respOk then
      (⟨ec, "RECOVERY", false⟩, ⟨"PULL_BACK", ec⟩,
        [EdgeOut.mood "Dominant"] ++
          (match inp.chat with
            | some c => [EdgeOut.chatMsg c]
            | none => []) ++ [EdgeOut.move])
    else
      (⟨ec, "PULL_BACK", false⟩, ⟨"PULL_BACK", ec⟩, [EdgeOut.mood "Dominant"])
  else
    let cs := if edgingStates.contains s.current_state then s.current_state else "BUILD_UP"
    if inp.respOk then
      (⟨s.edge_count, edgingRandomChoice inp.rand, false⟩, ⟨cs, s.edge_count⟩,
        [EdgeOut.mood (edgingMoodFor cs)] ++
          (match inp.chat with
            | some c => [EdgeOut.chatMsg c]
            | none => []) ++ [EdgeOut.move])
    else
      (⟨s.edge_count, cs, false⟩, ⟨cs, s.edge_count⟩, [EdgeOut.mood (edgingMoodFor cs)])

/-- The code after the edging `while` loop (lines 156-158): the closing
chat line and the `Afterglow` mood update run only when the stop event is
*not* set.  `stopSet` is the value `stop_event.is_set()` has when the
post-loop check runs. -/
def edgingClosing (stopSet : Bool) (edge_count : ℕ) : List EdgeOut :=
  if stopSet = false then
    [EdgeOut.chatMsg ("You did so well, holding it in for " ++ toString edge_count ++ " edges..."),
     EdgeOut.mood "Afterglow"]
  else []

/-- Per-pass environment of the whole edging loop: the value of the stop
event at the head check, then the iteration inputs. -/
structure EdgingRunInput where
  stopSet : Bool
  iter : EdgingIterInput

/-- `edging_mode_logic` driven by a finite schedule of per-pass
environments.  The `while not stop_event.is_set()` loop exits only at a
head check that observes the stop event set (the event is never cleared
inside the loop), and the post-loop code then runs with that same set
event; `none` means the schedule ended before the loop terminated. -/
def edging_mode_logic (s : EdgingState) : List EdgingRunInput → Option (List EdgeOut)
  | [] => none
  | i :: rest =>
    if i.stopSet then some (edgingClosing true s.edge_count)
    else
      let step := edgingIteration s i.iter
      match edging_mode_logic step.1 rest with
      | none => none
      | some out => some (step.2.2 ++ out)

/-! ## LLM bridge (`llm_service.py`, `LLMService._talk_to_llm`) -/

/-- A JSON value, as produced by `json.loads`. -/
inductive JValue where
  | null
  | bool (b : Bool)
  | num (q : ℚ)
  | str (s : String)
  | arr (xs : List JValue)
  | obj (fields : List (String × JValue))

/-- Python subscript `v[key]` on a JSON value, as `Option`: `some` when
`v` is an object carrying the key, `none` when the subscript would raise
`KeyError`/`TypeError`. -/
def JValue.getItem (v : JValue) (key : String) : Option JValue :=
  match v with
  | JValue.obj fields => fields.lookup key
  | _ => none

/-- Python `str.find(c)`: index of the first occurrence, `-1` if absent. -/
def pyFind (s : String) (c : Char) : ℤ :=
  match s.toList.findIdx? (fun x => x = c) with
  | some i => (i : ℤ)
  | none => -1

/-- Python `str.rfind(c)`: index of the last occurrence, `-1` if absent. -/
def pyRFind (s : String) (c : Char) : ℤ :=
  match s.toList.reverse.findIdx? (fun x => x = c) with
  | some i => (s.toList.length : ℤ) - 1 - (i : ℤ)
  | none => -1

/-- Python slice `s[start:stop]` for the non-negative indices the code
produces (`start` is a successful `find` result, `stop` is `rfind + 1`). -/
def pySlice (s : String) (start stop : ℤ) : String :=
  String.mk (((s.toList.drop start.toNat).take (stop.toNat - start.toNat)))

/-- The error dictionary `_talk_to_llm` returns on every failure path:
`{"chat": <message>, "move": None, "new_mood": None}`. -/
def errTriple (msg : String) : JValue :=
  JValue.obj [("chat", JValue.str msg), ("move", JValue.null), ("new_mood", JValue.null)]

/-- The outcome of the `session.post(...)` / `raise_for_status()` /
`response.json()` prefix of `_talk_to_llm`: a `RequestException`
(connection error or non-2xx status), a body that is not valid JSON, or a
parsed JSON body. -/
inductive LLMResponse where
  | requestError (e : String)
  | decodeError (e : String)
  | okJson (data : JValue)

/-- The content-extraction prefix of `_talk_to_llm`: try
`data["message"]["content"]` (`none` when a subscript raises
`KeyError`/`TypeError`), falling back to `data["response"]` in the
`except` branch. -/
def extract_content (data : JValue) : Option JValue :=
  match (data.getItem "message").bind (fun m => m.getItem "content") with
  | some c => some c
  | none => data.getItem "response"

/-- The parsing suffix of `_talk_to_llm`: `json.loads(content)`, and on a
`JSONDecodeError` the first-brace/last-brace substring fallback; when that
also fails, an error triple carrying the first error. -/
def parse_content (loads : String → Except String JValue) (content : String) : JValue :=
  match loads content with
  | Except.ok v => v
  | Except.error e =>
    let start := pyFind content (Char.ofNat 123)
    let stop := pyRFind content (Char.ofNat 125) + 1
    if start ≠ -1 ∧ stop ≠ -1 then
      match loads (pySlice content start stop) with
      | Except.ok v => v
      | Except.error _ => errTriple ("LLM Parse Error: " ++ e)
    else errTriple ("LLM Parse Error: " ++ e)

/-- `LLMService._talk_to_llm`, given the abstract `json.loads` for the
model-content string (`Except.error` is a raised `JSONDecodeError`).
Transport and decode failures return an error triple; then the content is
extracted from `data["message"]["content"]` with `data["response"]` as
the `except` fallback; a non-string content is a format error; otherwise
the content string is parsed by `parse_content`. -/
def talk_to_llm (loads : String → Except String JValue) (resp : LLMResponse) : JValue :=
  match resp with
  | LLMResponse.requestError e => errTriple ("LLM Connection Error: " ++ e)
  | LLMResponse.decodeError e => errTriple ("LLM JSON Decode Error: " ++ e)
  | LLMResponse.okJson data =>
    match extract_content data with
    | some (JValue.str content) => parse_content loads content
    | _ => errTriple "LLM Response Format Error"

/-- A value of the error-triple shape: the three keys present, `move` and
`new_mood` null, `chat` a (non-null) message string. -/
def isErrTriple (v : JValue) : Prop := ∃ m, v = errTriple m

/-! ## Claim theorems -/

/-- C1, counterexample: the Lovense backend does *not* no-op on a partial
move.  With the adapter configured and `depth = None`, `move(50, None, 50)`
issues network calls and changes `last_relative_speed`. -/
theorem C1_lovense_partial_move_acts :
    ((LovenseController.init true).move true (some 50) none (some 50)).2 ≠ [] ∧
    ((LovenseController.init true).move true (some 50) none (some 50)).1.last_relative_speed ≠
      (LovenseController.init true).last_relative_speed := by
  constructor <;> decide

/-- C1, amended: only the Handy backend treats a partial move (some field
null, speed not the 0 sentinel) as a strict no-op — zero network calls and
an unchanged state.  The Lovense backend instead substitutes defaults for
null fields and always issues at least one network call when configured. -/
theorem C1_partial_move_amended :
    (∀ (s : HandyController) (sp dp rng : Option ℚ),
        (sp = none ∨ dp = none ∨ rng = none) → sp ≠ some 0 →
        s.move sp dp rng = (s, [])) ∧
    (∀ (ls : LovenseController) (v2ok : Bool) (sp dp rng : Option ℚ),
        ls.configured = true → (ls.move v2ok sp dp rng).2 ≠ []) := by
  constructor
  · intro s sp dp rng hnull hsp
    cases hk : s.hasKey
    · simp [HandyController.move, hk]
    · cases sp with
      | none => cases dp <;> cases rng <;> simp [HandyController.move, hk]
      | some v =>
        have hv : ¬ v = 0 := by rintro rfl; exact hsp rfl
        rcases hnull with h | h | h
        · exact absurd h (by simp)
        · subst h; cases rng <;> simp [HandyController.move, hk, hv]
        · subst h; cases dp <;> simp [HandyController.move, hk, hv]
  · intro ls v2ok sp dp rng hc
    unfold LovenseController.move LovenseController.stop
    by_cases h0 : sp = some 0 <;> cases v2ok <;> simp [hc, h0]

/-- C1, witness for the amended theorem: a concrete partial move is a
no-op on the Handy backend and issues calls on the Lovense backend. -/
theorem C1_partial_move_amended_witness :
    (HandyController.init true).move none (some 50) (some 60) = (HandyController.init true, []) ∧
    ((LovenseController.init true).move true (some 50) none (some 60)).2 ≠ [] :=
  ⟨C1_partial_move_amended.1 _ none (some 50) (some 60) (Or.inl rfl) (by decide),
   C1_partial_move_amended.2 _ true (some 50) none (some 60) rfl⟩

/-- C2: however the mode function terminates — normal return (natural
completion or cancellation) or an unhandled exception — the supervisor's
`run` calls the actuator's `stop()` exactly once, fires `on_stop` exactly
once, and emits the fixed hand-back message, in that order, as the final
three events of the thread. -/
theorem C2_supervisor_teardown (cb : SupCallbacks) (initial : String) (outcome : LoopOutcome)
    (hh : cb.handy = true) (ho : cb.on_stop = true) (hm : cb.send_message = true) :
    (AutoModeThread.run cb initial outcome).count SupEvent.actuatorStop = 1 ∧
    (AutoModeThread.run cb initial outcome).count SupEvent.onStop = 1 ∧
    ∃ pre, AutoModeThread.run cb initial outcome =
      pre ++ [SupEvent.actuatorStop, SupEvent.onStop,
              SupEvent.msg "Okay, you're in control now."] := by
  unfold AutoModeThread.run
  rw [hh, ho, hm]
  cases outcome with
  | completes evs =>
    refine ⟨?_, ?_, SupEvent.msg initial :: evs.map SupEvent.loopEv, ?_⟩ <;>
      simp [List.count_append, List.count_cons, List.count_eq_zero]
  | raises evs e =>
    refine ⟨?_, ?_,
      SupEvent.msg initial ::
        (evs.map SupEvent.loopEv ++ [SupEvent.log ("Auto mode crashed: " ++ e)]), ?_⟩ <;>
      simp [List.count_append, List.count_cons, List.count_eq_zero]

/-- C2, witness: the teardown property at a concrete crash of the loop. -/
theorem C2_supervisor_teardown_witness :
    (AutoModeThread.run ⟨true, true, true⟩ "starting" (LoopOutcome.raises [7] "boom")).count
        SupEvent.actuatorStop = 1 ∧
    (AutoModeThread.run ⟨true, true, true⟩ "starting" (LoopOutcome.raises [7] "boom")).count
        SupEvent.onStop = 1 ∧
    ∃ pre, AutoModeThread.run ⟨true, true, true⟩ "starting" (LoopOutcome.raises [7] "boom") =
      pre ++ [SupEvent.actuatorStop, SupEvent.onStop,
              SupEvent.msg "Okay, you're in control now."] :=
  C2_supervisor_teardown ⟨true, true, true⟩ "starting" (LoopOutcome.raises [7] "boom") rfl rfl rfl

/-- C3: the widening step does *not* guarantee a positive-width slide
window.  With the default calibration bounds (`min_depth=0`,
`max_depth=100`) and the complete command `move(speed=50, depth=0,
range=0)`, the computed zone collapses at the very top, the `round` flips
it to `slide_min = slide_max = 100`, the `+2` widening raises `slide_max`
to 102, and the final `min(100, ·)` clamp collapses the window back to the
zero-width `[100, 100]`, which is what is sent to the device. -/
theorem C3_zero_width_window :
    ((HandyController.init true).move (some 50) (some 0) (some 0)).2 =
      [HandyCall.mode 0, HandyCall.hampStart, HandyCall.slide 100 100, HandyCall.velocity 45] ∧
    ((HandyController.init true).slide_window 0 0).1 =
      ((HandyController.init true).slide_window 0 0).2 := by
  constructor <;>
    norm_num [HandyController.move, HandyController.init, HandyController.slide_window,
      HandyController.clamped_zone, HandyController.final_physical_speed, clampPct, pyRound]

/-- C4, counterexample: when the signal-consuming iteration gets a failed
bridge response, the `continue` skips the phase advance; the state is
still `PULL_BACK`, and the next iteration normalises it to `BUILD_UP` —
not the forced `RECOVERY` the claim demands. -/
theorem C4_edging_failed_pullback_cex :
    ((edgingIteration ⟨0, "BUILD_UP", true⟩ ⟨false, none, 0⟩).2.1.phaseUsed = "PULL_BACK") ∧
    (edgingIteration ⟨0, "BUILD_UP", true⟩ ⟨false, none, 0⟩).1 =
      ⟨1, "PULL_BACK", false⟩ ∧
    (edgingIteration ⟨1, "PULL_BACK", false⟩ ⟨true, none, 0⟩).2.1.phaseUsed = "BUILD_UP" ∧
    (edgingIteration ⟨1, "PULL_BACK", false⟩ ⟨true, none, 0⟩).2.1.phaseUsed ≠ "RECOVERY" := by
  refine ⟨?_, ?_, ?_, ?_⟩ <;> decide

/-- C4, amended: a raised signal is consumed exactly once (one
`edge_count` increment, one clearing) and the consuming iteration runs as
`PULL_BACK`; the following iteration is forced to `RECOVERY` *provided
the consuming iteration obtained a move response* — on a failed response
the leftover `PULL_BACK` state is normalised to `BUILD_UP` instead.
Absent a signal, a completed iteration draws the next phase uniformly
from the four normal phases, independent of the current phase. -/
theorem C4_edging_signal_amended :
    (∀ (s : EdgingState) (inp : EdgingIterInput), s.signal = true →
      ((edgingIteration s inp).2.1.edgeCountReported = s.edge_count + 1 ∧
       (edgingIteration s inp).1.edge_count = s.edge_count + 1 ∧
       (edgingIteration s inp).1.signal = false ∧
       (edgingIteration s inp).2.1.phaseUsed = "PULL_BACK") ∧
      (inp.respOk = true →
        (edgingIteration s inp).1.current_state = "RECOVERY" ∧
        ∀ inp2 : EdgingIterInput,
          (edgingIteration (edgingIteration s inp).1 inp2).2.1.phaseUsed = "RECOVERY") ∧
      (inp.respOk = false →
        (edgingIteration s inp).1.current_state = "PULL_BACK" ∧
        ∀ inp2 : EdgingIterInput,
          (edgingIteration (edgingIteration s inp).1 inp2).2.1.phaseUsed = "BUILD_UP")) ∧
    (∀ (t : EdgingState) (inp : EdgingIterInput), t.signal = false → inp.respOk = true →
      (edgingIteration t inp).1.current_state = edgingRandomChoice inp.rand) := by
  constructor
  · intro s inp hsig
    refine ⟨?_, ?_, ?_⟩
    · cases hr : inp.respOk <;> simp [edgingIteration, hsig, hr]
    · intro hr
      constructor
      · simp [edgingIteration, hsig, hr]
      · intro inp2
        cases hr2 : inp2.respOk <;>
          simp [edgingIteration, hsig, hr, hr2, edgingStates]
    · intro hr
      constructor
      · simp [edgingIteration, hsig, hr]
      · intro inp2
        cases hr2 : inp2.respOk <;>
          simp [edgingIteration, hsig, hr, hr2, edgingStates]
  · intro t inp ht hr
    simp [edgingIteration, ht, hr]

/-- C4, witness: the amended theorem at a concrete signal consumption and
a concrete random phase draw. -/
theorem C4_edging_signal_amended_witness :
    ((edgingIteration ⟨2, "TEASE", true⟩ ⟨true, none, 1⟩).2.1.edgeCountReported = 3 ∧
     (edgingIteration ⟨2, "TEASE", true⟩ ⟨true, none, 1⟩).1.edge_count = 3 ∧
     (edgingIteration ⟨2, "TEASE", true⟩ ⟨true, none, 1⟩).1.signal = false ∧
     (edgingIteration ⟨2, "TEASE", true⟩ ⟨true, none, 1⟩).2.1.phaseUsed = "PULL_BACK") ∧
    (edgingIteration ⟨0, "HOLD", false⟩ ⟨true, none, 2⟩).1.current_state =
      edgingRandomChoice 2 :=
  ⟨(C4_edging_signal_amended.1 ⟨2, "TEASE", true⟩ ⟨true, none, 1⟩ rfl).1,
   C4_edging_signal_amended.2 ⟨0, "HOLD", false⟩ ⟨true, none, 2⟩ rfl rfl⟩

/-- Helper for C5: whatever `json.loads` does, `parse_content` returns
either an error triple or a value that `loads` produced. -/
theorem parse_content_spec (loads : String → Except String JValue) (content : String) :
    isErrTriple (parse_content loads content) ∨
      ∃ c, loads c = Except.ok (parse_content loads content) := by
  unfold parse_content
  split
  · next v hv => exact Or.inr ⟨content, by rw [hv]⟩
  · next e he =>
    dsimp only
    split
    · split
      · next v hv => exact Or.inr ⟨_, by rw [hv]⟩
      · exact Or.inl ⟨_, rfl⟩
    · exact Or.inl ⟨_, rfl⟩

/-- C5, counterexample: on a transport failure `_talk_to_llm` does *not*
return all-null values — `chat` carries a non-null error string; and on a
successful parse it returns whatever JSON object the model produced,
which need not contain the three keys at all (here `move` is absent). -/
theorem C5_failure_chat_not_null :
    (talk_to_llm (fun _ => Except.error "unreachable")
        (LLMResponse.requestError "timeout")).getItem "chat" =
      some (JValue.str "LLM Connection Error: timeout") ∧
    (talk_to_llm (fun _ => Except.error "unreachable")
        (LLMResponse.requestError "timeout")).getItem "chat" ≠ some JValue.null ∧
    talk_to_llm (fun _ => Except.ok (JValue.obj [("foo", JValue.num 1)]))
        (LLMResponse.okJson
          (JValue.obj [("message", JValue.obj [("content", JValue.str "x")])])) =
      JValue.obj [("foo", JValue.num 1)] ∧
    (talk_to_llm (fun _ => Except.ok (JValue.obj [("foo", JValue.num 1)]))
        (LLMResponse.okJson
          (JValue.obj [("message", JValue.obj [("content", JValue.str "x")])]))).getItem
        "move" = none := by
  refine ⟨rfl, ?_, rfl, rfl⟩
  simp [talk_to_llm, errTriple, JValue.getItem, List.lookup]

/-- C5, amended: `_talk_to_llm` is total (every caught failure returns a
value) and its result is either an error triple — the three keys present,
`move` and `new_mood` null, `chat` a non-null error-message string — or
exactly the JSON value `json.loads` produced from the model content,
which may be any JSON value and need not contain the three keys. -/
theorem C5_talk_to_llm_amended (loads : String → Except String JValue) (resp : LLMResponse) :
    isErrTriple (talk_to_llm loads resp) ∨
      ∃ c, loads c = Except.ok (talk_to_llm loads resp) := by
  cases resp with
  | requestError e => exact Or.inl ⟨_, rfl⟩
  | decodeError e => exact Or.inl ⟨_, rfl⟩
  | okJson data =>
    have hrw : talk_to_llm loads (LLMResponse.okJson data) =
        (match extract_content data with
          | some (JValue.str content) => parse_content loads content
          | _ => errTriple "LLM Response Format Error") := rfl
    rw [hrw]
    cases hc : extract_content data with
    | none => exact Or.inl ⟨_, rfl⟩
    | some c =>
      cases c with
      | str content => exact parse_content_spec loads content
      | null => exact Or.inl ⟨_, rfl⟩
      | bool b => exact Or.inl ⟨_, rfl⟩
      | num q => exact Or.inl ⟨_, rfl⟩
      | arr xs => exact Or.inl ⟨_, rfl⟩
      | obj fs => exact Or.inl ⟨_, rfl⟩

/-- C6, counterexample: a move whose network calls all fail still changes
the state.  `_send_command` swallows every `RequestException` and `move`
never consults a call's outcome, so `move(50, 50, 100)` sets
`last_stroke_speed` to 45 whether or not any call reached the device —
the state is *not* left unchanged on network failure. -/
theorem C6_failed_move_mutates_state :
    ((HandyController.init true).move (some 50) (some 50) (some 100)).1.last_stroke_speed ≠
      (HandyController.init true).last_stroke_speed ∧
    ((HandyController.init true).move (some 50) (some 50) (some 100)).1.last_stroke_speed = 45 := by
  constructor <;>
    norm_num [HandyController.move, HandyController.init, HandyController.final_physical_speed,
      clampPct, pyRound]

/-- C6, amended: the Handy adapter never raises on network failure (all
request exceptions are caught inside `_send_command`), but it does not
leave state unchanged: a complete, non-stop `move` unconditionally
overwrites `last_stroke_speed`, `last_relative_speed` and
`last_depth_pos` with the newly computed values, regardless of whether
any network call succeeded (the state update is the same function of the
inputs for every network outcome). -/
theorem C6_handy_move_overwrites_state (s : HandyController) (sp dp rng : ℚ)
    (hk : s.hasKey = true) (hsp : sp ≠ 0) :
    (s.move (some sp) (some dp) (some rng)).1 =
      { s with
        last_stroke_speed := s.final_physical_speed sp
        last_relative_speed := clampPct sp
        last_depth_pos := pyRound (clampPct dp) } := by
  simp [HandyController.move, hk, hsp]

/-- C6, witness: the amended theorem at a concrete state and move. -/
theorem C6_handy_move_overwrites_state_witness :
    ((HandyController.init true).move (some 50) (some 50) (some 100)).1 =
      { HandyController.init true with
        last_stroke_speed := (HandyController.init true).final_physical_speed 50
        last_relative_speed := clampPct 50
        last_depth_pos := pyRound (clampPct 50) } :=
  C6_handy_move_overwrites_state (HandyController.init true) 50 50 100 rfl (by decide)

/-- Helper: `_safe_percent` is the identity on an in-range percentage. -/
theorem clampPct_eq_self {p : ℚ} (h0 : 0 ≤ p) (h1 : p ≤ 100) : clampPct p = p := by
  simp [clampPct, min_eq_right h1, max_eq_right h0]

/-- C7: with calibration `min_depth=10, max_depth=90, min_speed=20,
max_speed=80`, `move(50, 50, 100)` yields physical speed exactly
`20 + (80-20)/2 = 50` and a clamped position zone spanning exactly the
full calibrated range `[10, 90]` (the slide call carries the same window
flipped into slide coordinates); and in general, speed maps by the linear
interpolation `min + (max-min) * pct/100` (then banker-rounded) and the
pre-clamp window is the symmetric window of width
`(max_depth-min_depth) * range/100` around the interpolated center,
clamped to the calibration bounds. -/
theorem C7_calibration_mapping :
    (((HandyController.init true).update_settings 20 80 10 90).final_physical_speed 50 = 50) ∧
    (((HandyController.init true).update_settings 20 80 10 90).clamped_zone 50 100 = (10, 90)) ∧
    ((((HandyController.init true).update_settings 20 80 10 90).move
        (some 50) (some 50) (some 100)).2 =
      [HandyCall.mode 0, HandyCall.hampStart, HandyCall.slide 10 90, HandyCall.velocity 50]) ∧
    (∀ (t : HandyController) (sp : ℚ), 0 ≤ sp → sp ≤ 100 →
      t.final_physical_speed sp =
        pyRound (t.min_user_speed + (t.max_user_speed - t.min_user_speed) * sp / 100)) ∧
    (∀ (t : HandyController) (dp rng : ℚ),
      0 ≤ dp → dp ≤ 100 → 0 ≤ rng → rng ≤ 100 →
      t.clamped_zone dp rng =
        (max t.min_handy_depth
          ((t.min_handy_depth + (t.max_handy_depth - t.min_handy_depth) * dp / 100) -
            (t.max_handy_depth - t.min_handy_depth) * rng / 100 / 2),
         min t.max_handy_depth
          ((t.min_handy_depth + (t.max_handy_depth - t.min_handy_depth) * dp / 100) +
            (t.max_handy_depth - t.min_handy_depth) * rng / 100 / 2))) := by
  refine ⟨?_, ?_, ?_, ?_, ?_⟩
  · norm_num [HandyController.final_physical_speed, HandyController.init,
      HandyController.update_settings, clampPct, pyRound]
  · norm_num [HandyController.clamped_zone, HandyController.init,
      HandyController.update_settings, clampPct]
  · norm_num [HandyController.move, HandyController.init, HandyController.update_settings,
      HandyController.slide_window, HandyController.clamped_zone,
      HandyController.final_physical_speed, clampPct, pyRound]
  · intro t sp h0 h1
    unfold HandyController.final_physical_speed
    rw [clampPct_eq_self h0 h1]
    congr 1
    ring
  · intro t dp rng hd0 hd1 hr0 hr1
    unfold HandyController.clamped_zone
    dsimp only
    rw [clampPct_eq_self hd0 hd1, clampPct_eq_self hr0 hr1]
    ring_nf

/-- C7, witness: the general mapping formulas at concrete in-range
percentages. -/
theorem C7_calibration_mapping_witness :
    (HandyController.init true).final_physical_speed 75 =
      pyRound ((HandyController.init true).min_user_speed +
        ((HandyController.init true).max_user_speed -
          (HandyController.init true).min_user_speed) * 75 / 100) ∧
    (HandyController.init true).clamped_zone 30 40 =
      (max (HandyController.init true).min_handy_depth
        (((HandyController.init true).min_handy_depth +
            ((HandyController.init true).max_handy_depth -
              (HandyController.init true).min_handy_depth) * 30 / 100) -
          ((HandyController.init true).max_handy_depth -
            (HandyController.init true).min_handy_depth) * 40 / 100 / 2),
       min (HandyController.init true).max_handy_depth
        (((HandyController.init true).min_handy_depth +
            ((HandyController.init true).max_handy_depth -
              (HandyController.init true).min_handy_depth) * 30 / 100) +
          ((HandyController.init true).max_handy_depth -
            (HandyController.init true).min_handy_depth) * 40 / 100 / 2)) :=
  ⟨C7_calibration_mapping.2.2.2.1 (HandyController.init true) 75 (by decide) (by decide),
   C7_calibration_mapping.2.2.2.2 (HandyController.init true) 30 40
     (by decide) (by decide) (by decide) (by decide)⟩

/-- Helper for C8: the per-phase mood table never yields `Afterglow`. -/
theorem edgingMoodFor_ne_afterglow (p : String) : edgingMoodFor p ≠ "Afterglow" := by
  unfold edgingMoodFor
  split
  · decide
  · split
    · decide
    · split <;> decide

/-- Helper for C8: symmetric form of `edgingMoodFor_ne_afterglow`. -/
theorem afterglow_ne_edgingMoodFor (p : String) : "Afterglow" ≠ edgingMoodFor p :=
  (edgingMoodFor_ne_afterglow p).symm

/-- Helper for C8: no single edging iteration emits the `Afterglow` mood
(iterations use `Dominant` or the four-phase mood table). -/
theorem edgingIteration_no_afterglow (s : EdgingState) (i : EdgingIterInput) :
    EdgeOut.mood "Afterglow" ∉ (edgingIteration s i).2.2 := by
  cases hs : s.signal <;> cases hr : i.respOk <;> cases hc : i.chat <;>
    simp [edgingIteration, hs, hr, hc, edgingMoodFor_ne_afterglow, afterglow_ne_edgingMoodFor]

/-- C8: the closing line and `Afterglow` mood are dead code.  The edging
`while` loop exits only at a head check that observes the stop event set,
and the post-loop guard `if not stop_event.is_set()` is then always
false, so `edgingClosing true _` emits nothing — and no terminating run
of the loop ever emits the `Afterglow` mood update (or the closing chat
line guarded with it). -/
theorem C8_closing_dead_code :
    (∀ ec, edgingClosing true ec = []) ∧
    ∀ (s : EdgingState) (ins : List EdgingRunInput) (out : List EdgeOut),
      edging_mode_logic s ins = some out → EdgeOut.mood "Afterglow" ∉ out := by
  constructor
  · intro ec; rfl
  · intro s ins
    induction ins generalizing s with
    | nil => intro out h; simp [edging_mode_logic] at h
    | cons i rest ih =>
      intro out h
      simp only [edging_mode_logic] at h
      cases hstop : i.stopSet with
      | true =>
        rw [hstop] at h
        simp only [if_true] at h
        have h3 : edgingClosing true s.edge_count = out := Option.some.inj h
        rw [show edgingClosing true s.edge_count = [] from rfl] at h3
        rw [← h3]
        simp
      | false =>
        rw [hstop] at h
        simp only [Bool.false_eq_true, if_false] at h
        cases hrec : edging_mode_logic (edgingIteration s i.iter).1 rest with
        | none => rw [hrec] at h; simp at h
        | some out2 =>
          rw [hrec] at h
          have h3 : (edgingIteration s i.iter).2.2 ++ out2 = out := Option.some.inj h
          rw [← h3]
          intro hmem
          rcases List.mem_append.mp hmem with h1 | h2
          · exact edgingIteration_no_afterglow s i.iter h1
          · exact ih (edgingIteration s i.iter).1 out2 hrec h2

/-- C8, witness: a concrete cancelled run — the stop event set before the
first iteration — produces no closing line and no `Afterglow` mood. -/
theorem C8_closing_dead_code_witness :
    edgingClosing true 3 = [] ∧
    EdgeOut.mood "Afterglow" ∉ ([] : List EdgeOut) :=
  ⟨C8_closing_dead_code.1 3,
   C8_closing_dead_code.2 ⟨0, "BUILD_UP", false⟩ [⟨true, ⟨true, none, 0⟩⟩] [] rfl⟩

/-- Helper for C9: when the stop event is never set, the `for` loop never
breaks and performs exactly one bridge call per budgeted iteration. -/
theorem milkingIterations_no_stop (inp : ℕ → MilkIterInput)
    (hstop : ∀ i, (inp i).stopSet = false) :
    ∀ (n i : ℕ), (milkingIterations inp i n).2 = false ∧
      (milkingIterations inp i n).1.count MilkOut.bridgeCall = n := by
  intro n
  induction n with
  | zero => intro i; simp [milkingIterations]
  | succ k ih =>
    intro i
    simp only [milkingIterations, hstop i, Bool.false_eq_true, if_false]
    constructor
    · simpa using (ih (i + 1)).1
    · cases hr : (inp i).respOk <;> cases hc : (inp i).chat <;>
        simp [hr, hc, List.count_append, List.count_cons, (ih (i + 1)).2]

/-- C9: with the iteration budget `n` drawn once by `random.randint(6, 9)`
(so `6 ≤ n ≤ 9`, both inclusive) and no cancellation, milking mode makes
exactly `n` bridge calls — between 6 and 9 inclusive — and then
terminates naturally with the fixed closing line as its last message. -/
theorem C9_milking_bound (n : ℕ) (inp : ℕ → MilkIterInput)
    (h6 : 6 ≤ n) (h9 : n ≤ 9) (hstop : ∀ i, (inp i).stopSet = false) :
    (milking_mode_logic n inp).count MilkOut.bridgeCall = n ∧
    6 ≤ (milking_mode_logic n inp).count MilkOut.bridgeCall ∧
    (milking_mode_logic n inp).count MilkOut.bridgeCall ≤ 9 ∧
    (milking_mode_logic n inp).getLast? =
      some (MilkOut.chatMsg "That's it... give it all to me. Don't hold back.") := by
  have hbody := milkingIterations_no_stop inp hstop n 0
  unfold milking_mode_logic
  dsimp only
  rw [hbody.1, hstop n]
  simp only [if_false, Bool.false_eq_true]
  refine ⟨?_, ?_, ?_, ?_⟩
  · simp [List.count_append, hbody.2]
  · simp [List.count_append, hbody.2, h6]
  · simp [List.count_append, hbody.2, h9]
  · simp [List.getLast?_concat]

/-- C9, witness: an uninterrupted run with a budget of 7 makes exactly 7
bridge calls and ends with the closing line. -/
theorem C9_milking_bound_witness :
    (milking_mode_logic 7 (fun _ => ⟨false, true, none⟩)).count MilkOut.bridgeCall = 7 ∧
    6 ≤ (milking_mode_logic 7 (fun _ => ⟨false, true, none⟩)).count MilkOut.bridgeCall ∧
    (milking_mode_logic 7 (fun _ => ⟨false, true, none⟩)).count MilkOut.bridgeCall ≤ 9 ∧
    (milking_mode_logic 7 (fun _ => ⟨false, true, none⟩)).getLast? =
      some (MilkOut.chatMsg "That's it... give it all to me. Don't hold back.") :=
  C9_milking_bound 7 (fun _ => ⟨false, true, none⟩) (by decide) (by decide) (fun _ => rfl)

/-- C10: the relay queue (`deque(maxlen=5)` pushed by `append`, popped by
`_check_for_user_message`) holds at most 5 items with drop-oldest
overflow and FIFO pops: pushing six messages leaves the five most recent
in push order (the first discarded), and popping one per iteration yields
them oldest-first, then a no-op `None` on the empty queue. -/
theorem C10_relay_queue_fifo (m1 m2 m3 m4 m5 m6 : String) :
    List.foldl mode_message_queue_append [] [m1, m2, m3, m4, m5, m6] = [m2, m3, m4, m5, m6] ∧
    check_for_user_message [m2, m3, m4, m5, m6] = (some m2, [m3, m4, m5, m6]) ∧
    check_for_user_message [m3, m4, m5, m6] = (some m3, [m4, m5, m6]) ∧
    check_for_user_message [m4, m5, m6] = (some m4, [m5, m6]) ∧
    check_for_user_message [m5, m6] = (some m5, [m6]) ∧
    check_for_user_message [m6] = (some m6, []) ∧
    check_for_user_message ([] : List String) = (none, []) := by
  refine ⟨?_, rfl, rfl, rfl, rfl, rfl, rfl⟩
  simp [mode_message_queue_append, dequeAppend, check_for_user_message]
